import Mathlib

/-!
Shallow embedding of the BPM (BentoBase Performance Manager) SQLite-backed
server, `src/unnamed/part_000` (`src/server.js` is an earlier variant of the
same code without the AI proxy and the masked settings response).

Modelling conventions:
  * The SQLite tables are lists kept in rowid (insertion) order; `ORDER BY
    rowid_ DESC LIMIT 100` becomes `reverse` + `take 100`, and the trim
    statement keeps the final 100 elements of the list.
  * JavaScript body fields that the handlers read with `||` or `??` are
    `Option String`; `none` stands for an absent or `null` field (both
    operators treat the two identically on these fields).  Where the code
    distinguishes `undefined` from `null` (the ticket `id` binding and the
    settings fields) the three-valued `JsVal` is used instead.
  * The two `new Date().toISOString()` reads inside a single request are
    modelled as one clock reading `now` passed to the handler.
  * `better-sqlite3` rejects `undefined` bind parameters and rolls a
    `db.transaction` back when its body throws; both library behaviours are
    reflected in `insertTicketRow` and `putDataHandler`.
-/

namespace BPM

set_option maxRecDepth 100000

/-- JS `x || d` on string-valued fields: the empty string, `null` and
`undefined` are all falsy. -/
def jsOr (v : Option String) (d : String) : String :=
  match v with
  | some s => if s = "" then d else s
  | none => d

/-- JS `x || null` on string-valued fields (used for `a.ticketId || null`). -/
def jsOrNull (v : Option String) : Option String :=
  match v with
  | some s => if s = "" then none else some s
  | none => none

/-- JS `x || d` on numeric fields (`result.status || 500`): 0, `null` and
`undefined` are falsy. -/
def jsOrNat (v : Option Nat) (d : Nat) : Nat :=
  match v with
  | some n => if n = 0 then d else n
  | none => d

/-- A JavaScript value that may be `undefined`, `null`, or a string; used
where the code distinguishes the three. -/
inductive JsVal where
  | undef
  | null
  | str (s : String)
deriving DecidableEq

/-- JS truthiness of a `JsVal` (only a non-empty string is truthy here). -/
def JsVal.truthy : JsVal → Bool
  | .str s => s ≠ ""
  | _ => false

/-- The `Option String` view of a bound `JsVal` id: `undefined` never reaches
the table, `null` is stored as SQL NULL. -/
def jsIdOpt : JsVal → Option String
  | .str s => some s
  | _ => none

/-- A row of the `tickets` table.  `id` is `Option String` because a SQLite
`TEXT PRIMARY KEY` column admits NULL. -/
structure StoredTicket where
  id : Option String
  title : String
  description : String
  type : String
  priority : String
  status : String
  area : String
  subarea : String
  assignee : String
  files : String
  createdAt : String
  updatedAt : String
deriving DecidableEq

/-- A row of the `activity` table (the autoincrement `rowid_` is the list
position). -/
structure StoredActivity where
  action : String
  ticketId : Option String
  title : String
  time : String
deriving DecidableEq

/-- A parsed JSON request body for the ticket endpoints.  `_activity` is the
optional client-supplied activity entry the mutation handlers append. -/
structure TicketBody where
  id : JsVal := .undef
  title : Option String := none
  description : Option String := none
  type : Option String := none
  priority : Option String := none
  status : Option String := none
  area : Option String := none
  subarea : Option String := none
  assignee : Option String := none
  files : Option String := none
  createdAt : Option String := none
  updatedAt : Option String := none
  _activity : Option StoredActivity := none
deriving DecidableEq

/-- A caller-supplied activity entry inside a full-sync body. -/
structure ActivityBody where
  action : Option String := none
  ticketId : Option String := none
  title : Option String := none
  time : Option String := none
deriving DecidableEq

/-- The body of `PUT /api/data` (`data.tickets || []`, `data.activity || []`). -/
structure SyncBody where
  tickets : Option (List TicketBody) := none
  activity : Option (List ActivityBody) := none
deriving DecidableEq

/-- The whole database: the three tables, each in rowid order. -/
structure DB where
  tickets : List StoredTicket := []
  activity : List StoredActivity := []
  settings : List (String × String) := []
deriving DecidableEq

/-- The JSON body of `GET /api/settings`. -/
structure SettingsResp where
  theme : String
  hasAnthropicKey : Bool
  anthropicKeyHint : String
  hasOpenAIKey : Bool
  openaiKeyHint : String
deriving DecidableEq

/-- JSON response bodies the handlers produce. -/
inductive RespBody where
  | okTrue
  | okDeleted (id : String)
  | errorR (msg : String)
  | ticketR (t : Option StoredTicket)
  | dataR (tickets : List StoredTicket) (activity : List StoredActivity)
      (kbNotes : List (String × String))
  | aiOk (content : String) (usage : Option String)
deriving DecidableEq

/-- Models `stmts.getTicket`: `SELECT * FROM tickets WHERE id = ?` (first matching
row). -/
def lookupTicket : List StoredTicket → String → Option StoredTicket
  | [], _ => none
  | tk :: rest, s => if tk.id = some s then some tk else lookupTicket rest s

/-- The row built by `stmts.insertTicket` from a request body: the `||`
defaults the insert paths apply to every field. -/
def mkTicketRow (idv : Option String) (t : TicketBody) (now : String) :
    StoredTicket :=
  { id := idv
    title := jsOr t.title ""
    description := jsOr t.description ""
    type := jsOr t.type "feature"
    priority := jsOr t.priority "medium"
    status := jsOr t.status "open"
    area := jsOr t.area ""
    subarea := jsOr t.subarea ""
    assignee := jsOr t.assignee ""
    files := jsOr t.files ""
    createdAt := jsOr t.createdAt now
    updatedAt := jsOr t.updatedAt now }

/-- Running `stmts.insertTicket`: an `undefined` id is rejected by the
binding layer, a duplicate non-NULL id violates the primary key, otherwise
the row is appended.  (SQLite treats NULL primary-key values as pairwise
distinct, so a NULL id never conflicts.) -/
def insertTicketRow (ts : List StoredTicket) (t : TicketBody) (now : String) :
    Except String (List StoredTicket) :=
  match t.id with
  | .undef => .error "Invalid bind parameter: undefined"
  | .null => .ok (ts ++ [mkTicketRow none t now])
  | .str s =>
    match lookupTicket ts s with
    | some _ => .error "UNIQUE constraint failed: tickets.id"
    | none => .ok (ts ++ [mkTicketRow (some s) t now])

/-- Models `stmts.trimActivity`: delete every row whose rowid is not among the 100
largest, i.e. keep the last 100 inserted. -/
def trimActivity (l : List StoredActivity) : List StoredActivity :=
  l.drop (l.length - 100)

/-- Models `stmts.recentActivity`: `ORDER BY rowid_ DESC LIMIT 100`. -/
def recentActivity (l : List StoredActivity) : List StoredActivity :=
  l.reverse.take 100

/-- The `insertActivity.run(...)` + `trimActivity.run()` pair the three
ticket mutation handlers execute for a client-supplied `_activity` entry. -/
def logActivity (st : DB) (a : StoredActivity) : DB :=
  { st with activity := trimActivity (st.activity ++ [a]) }

/-- The activity row `bulkSync` builds from a caller-supplied entry. -/
def mkActivityRow (a : ActivityBody) (now : String) : StoredActivity :=
  { action := jsOr a.action ""
    ticketId := jsOrNull a.ticketId
    title := jsOr a.title ""
    time := jsOr a.time now }

/-- Lexicographic comparison of character lists, modelling SQLite's BINARY
collation on TEXT columns. -/
def charListLe : List Char → List Char → Bool
  | [], _ => true
  | x :: xs, y :: ys =>
    if x < y then true
    else if y < x then false
    else charListLe xs ys
  | _ :: _, [] => false

/-- SQLite TEXT ordering (BINARY collation) on strings. -/
def sqliteTextLe (a b : String) : Bool :=
  charListLe a.toList b.toList

/-- Insert one ticket in front of a list already sorted by `createdAt`
descending, keeping earlier-inserted rows first on ties (models the stable
scan order SQLite produces for `ORDER BY createdAt DESC`). -/
def insertByCreatedDesc (t : StoredTicket) :
    List StoredTicket → List StoredTicket
  | [] => [t]
  | u :: us =>
    if sqliteTextLe u.createdAt t.createdAt then t :: u :: us
    else u :: insertByCreatedDesc t us

/-- Models `stmts.allTickets`: `SELECT * FROM tickets ORDER BY createdAt DESC`. -/
def sortByCreatedDesc : List StoredTicket → List StoredTicket
  | [] => []
  | t :: ts => insertByCreatedDesc t (sortByCreatedDesc ts)

/-- Models `stmts.getSetting`: `SELECT value FROM settings WHERE key = ?`. -/
def getSetting : List (String × String) → String → Option String
  | [], _ => none
  | kv :: rest, key => if kv.1 = key then some kv.2 else getSetting rest key

/-- Models `stmts.upsertSetting`: insert or overwrite on key conflict. -/
def upsertSetting : List (String × String) → String → String →
    List (String × String)
  | [], key, v => [(key, v)]
  | kv :: rest, key, v =>
    if kv.1 = key then (kv.1, v) :: rest else kv :: upsertSetting rest key v

/-- Models `DELETE FROM settings WHERE key = ?` (the ad hoc statements in the
settings PUT handler). -/
def deleteSetting : List (String × String) → String → List (String × String)
  | [], _ => []
  | kv :: rest, key =>
    if kv.1 = key then deleteSetting rest key else kv :: deleteSetting rest key

/-- The body of the `bulkSync` transaction: insert every caller-supplied
ticket into an initially emptied table, stopping at the first failed
insert. -/
def insertAllTickets (now : String) :
    List StoredTicket → List TicketBody → Except String (List StoredTicket)
  | acc, [] => .ok acc
  | acc, t :: rest =>
    match insertTicketRow acc t now with
    | .error e => .error e
    | .ok acc' => insertAllTickets now acc' rest

/-- The new table contents the `bulkSync` transaction computes: delete-all
then reinsert every supplied ticket and activity entry (the activity loop
applies the `||` defaults but never trims). -/
def bulkSyncCore (d : SyncBody) (now : String) :
    Except String (List StoredTicket × List StoredActivity) :=
  match insertAllTickets now [] (d.tickets.getD []) with
  | .error e => .error e
  | .ok ts => .ok (ts, (d.activity.getD []).map (fun a => mkActivityRow a now))

/-- Handler for `PUT /api/data`: run `bulkSync(body)` — `db.transaction` installs the new
tables on success and rolls everything back when the body throws, in which
case the outer catch answers 500. -/
def putDataHandler (st : DB) (d : SyncBody) (now : String) :
    DB × (Nat × RespBody) :=
  match bulkSyncCore d now with
  | .error e => (st, (500, .errorR e))
  | .ok (ts, acts) =>
    ({ st with tickets := ts, activity := acts }, (200, .okTrue))

/-- Handler for `GET /api/data`: all tickets newest-created-first, the 100 most recent
activity entries newest-first, and a constant empty `kbNotes` object. -/
def getDataHandler (st : DB) : Nat × RespBody :=
  (200, .dataR (sortByCreatedDesc st.tickets) (recentActivity st.activity) [])

/-- Handler for `POST /api/tickets`: insert with defaults, optionally append and trim the
client-supplied `_activity` entry, then answer 201 with `getTicket(t.id)`.
A failed insert throws into the outer catch (500, state unchanged). -/
def postTicketHandler (st : DB) (t : TicketBody) (now : String) :
    DB × (Nat × RespBody) :=
  match insertTicketRow st.tickets t now with
  | .error e => (st, (500, .errorR e))
  | .ok ts =>
    let st1 : DB := { st with tickets := ts }
    let st2 : DB :=
      match t._activity with
      | some a => logActivity st1 a
      | none => st1
    (st2, (201, .ticketR
      (match t.id with
       | .str s => lookupTicket st2.tickets s
       | _ => none)))

/-- The row `stmts.updateTicket` writes over a matching row `tk`: each field
is the request value `??` the initially fetched `existing` row's value, the
id and `createdAt` columns are not part of the SET list, and `updatedAt` is
`t.updatedAt || now`. -/
def applyTicketUpdate (t : TicketBody) (ex : StoredTicket) (now : String)
    (tk : StoredTicket) : StoredTicket :=
  { tk with
    title := t.title.getD ex.title
    description := t.description.getD ex.description
    type := t.type.getD ex.type
    priority := t.priority.getD ex.priority
    status := t.status.getD ex.status
    area := t.area.getD ex.area
    subarea := t.subarea.getD ex.subarea
    assignee := t.assignee.getD ex.assignee
    files := t.files.getD ex.files
    updatedAt := jsOr t.updatedAt now }

/-- Handler for `PUT /api/tickets/:id`: 404 when the id is unknown, otherwise merge the
supplied fields over the existing row, optionally log `_activity`, and
answer 200 with the re-fetched ticket. -/
def putTicketHandler (st : DB) (idStr : String) (t : TicketBody)
    (now : String) : DB × (Nat × RespBody) :=
  match lookupTicket st.tickets idStr with
  | none => (st, (404, .errorR "Ticket not found"))
  | some ex =>
    let st1 : DB :=
      { st with tickets :=
          st.tickets.map (fun tk =>
            if tk.id = some idStr then applyTicketUpdate t ex now tk else tk) }
    let st2 : DB :=
      match t._activity with
      | some a => logActivity st1 a
      | none => st1
    (st2, (200, .ticketR (lookupTicket st2.tickets idStr)))

/-- Handler for `DELETE /api/tickets/:id`: 404 when the id is unknown, otherwise delete
the row, optionally log the body's `_activity`, and answer
`{ok:true, deleted:id}`. -/
def deleteTicketHandler (st : DB) (idStr : String)
    (bodyActivity : Option StoredActivity) : DB × (Nat × RespBody) :=
  match lookupTicket st.tickets idStr with
  | none => (st, (404, .errorR "Ticket not found"))
  | some _ =>
    let st1 : DB :=
      { st with tickets := st.tickets.filter (fun tk => tk.id ≠ some idStr) }
    let st2 : DB :=
      match bodyActivity with
      | some a => logActivity st1 a
      | none => st1
    (st2, (200, .okDeleted idStr))

/-- Handler for `GET /api/settings`: the theme (defaulting to "marshmallow" when no row
exists) and, for each API key, a presence flag plus a masked hint built from
the key's last four characters. -/
def getSettingsHandler (settings : List (String × String)) :
    Nat × SettingsResp :=
  let theme := getSetting settings "theme"
  let apiKey := getSetting settings "anthropic_api_key"
  let openaiKey := getSetting settings "openai_api_key"
  let hasApiKey := (apiKey.getD "") ≠ ""
  let hasOpenAIKey := (openaiKey.getD "") ≠ ""
  (200,
    { theme := theme.getD "marshmallow"
      hasAnthropicKey := hasApiKey
      anthropicKeyHint :=
        if hasApiKey then "sk-ant-•••" ++ (apiKey.getD "").takeRight 4 else ""
      hasOpenAIKey := hasOpenAIKey
      openaiKeyHint :=
        if hasOpenAIKey then "sk-•••" ++ (openaiKey.getD "").takeRight 4
        else "" })

/-- The body of `PUT /api/settings`. -/
structure SettingsBody where
  theme : JsVal := .undef
  anthropic_api_key : JsVal := .undef
  openai_api_key : JsVal := .undef
deriving DecidableEq

/-- The `if (body.theme) upsert` line of the settings PUT handler: a falsy
theme leaves the store untouched. -/
def settingsThemeStep (st : List (String × String)) (v : JsVal) :
    List (String × String) :=
  match v with
  | .str s => if s ≠ "" then upsertSetting st "theme" s else st
  | _ => st

/-- The step shared by the two API-key blocks of the settings PUT handler:
skip when the field is absent (`undefined`), upsert when truthy, delete the
row otherwise. -/
def settingsKeyStep (st : List (String × String)) (key : String)
    (v : JsVal) : List (String × String) :=
  match v with
  | .undef => st
  | .null => deleteSetting st key
  | .str s => if s ≠ "" then upsertSetting st key s else deleteSetting st key

/-- Handler for `PUT /api/settings`: a truthy theme is upserted; each API-key field, when
present (not `undefined`), is upserted if truthy and its settings row deleted
otherwise; the response is always `{ok:true}`. -/
def putSettingsHandler (st : List (String × String)) (b : SettingsBody) :
    List (String × String) × (Nat × RespBody) :=
  let st1 := settingsThemeStep st b.theme
  let st2 := settingsKeyStep st1 "anthropic_api_key" b.anthropic_api_key
  let st3 := settingsKeyStep st2 "openai_api_key" b.openai_api_key
  (st3, (200, .okTrue))

/-- A chat message in the `POST /api/ai/prompt` body. -/
structure AiMsg where
  role : String
  content : String
deriving DecidableEq

/-- The body of `POST /api/ai/prompt`. -/
structure AiBody where
  provider : Option String := none
  model : Option String := none
  system : Option String := none
  messages : Option (List AiMsg) := none
  apiKey : Option String := none
deriving DecidableEq

/-- The fields the proxy reads from a successfully parsed upstream JSON
body: `error?.message`, the provider-specific assistant text
(`choices[0].message.content` for OpenAI, `content[0].text` for
Anthropic), and the opaque `usage` object. -/
structure ParsedUpstream where
  errorMessage : Option String := none
  content : Option String := none
  usage : Option String := none
deriving DecidableEq

/-- What the single outbound HTTPS request observes: a transport error, or a
response with a status code and (if the data was valid JSON) a parsed
body. -/
inductive UpstreamEvent where
  | transportError (msg : String)
  | response (status : Nat) (parsed : Option ParsedUpstream)
deriving DecidableEq

/-- The value the proxy's promise resolves with. -/
inductive AiResult where
  | err (msg : String) (status : Option Nat)
  | ok (content : String) (usage : Option String)
deriving DecidableEq

/-- The shared promise-resolution logic of both provider branches: JSON that
fails to parse yields the branch's parse-failure message, an upstream status
of 400 or above relays `error?.message || "API error <status>"` with that
status, anything else succeeds with the extracted content, and a transport
error resolves with its message and no status. -/
def upstreamResult (parseFailMsg : String) (u : UpstreamEvent) : AiResult :=
  match u with
  | .transportError m => .err m none
  | .response _ none => .err parseFailMsg none
  | .response status (some p) =>
    if 400 ≤ status then
      .err (jsOr p.errorMessage ("API error " ++ toString status)) (some status)
    else .ok (jsOr p.content "") p.usage

/-- One outbound HTTPS request, recording the provider host and the API key
attached to it. -/
structure OutCall where
  provider : String
  key : String
deriving DecidableEq

/-- Handler for `POST /api/ai/prompt`: resolve the key (settings only for OpenAI,
`body.apiKey ||` settings for Anthropic), answer 400 without calling out
when none resolves, otherwise make exactly one upstream call and map its
result to `result.status || 500` with the error message, or 200 with the
content. -/
def aiPromptHandler (body : AiBody) (settings : List (String × String))
    (u : UpstreamEvent) : (Nat × RespBody) × List OutCall :=
  let provider := jsOr body.provider "anthropic"
  if provider = "openai" then
    let apiKey := (getSetting settings "openai_api_key").getD ""
    if apiKey = "" then
      ((400, .errorR
        "No OpenAI API key configured. Add one in the Prompt Lab settings."),
       [])
    else
      match upstreamResult "Failed to parse OpenAI response" u with
      | .err m s => ((jsOrNat s 500, .errorR m), [⟨"openai", apiKey⟩])
      | .ok c us => ((200, .aiOk c us), [⟨"openai", apiKey⟩])
  else
    let apiKey :=
      jsOr body.apiKey ((getSetting settings "anthropic_api_key").getD "")
    if apiKey = "" then
      ((400, .errorR
        "No Anthropic API key configured. Add one in the Prompt Lab settings."),
       [])
    else
      match upstreamResult "Failed to parse API response" u with
      | .err m s => ((jsOrNat s 500, .errorR m), [⟨"anthropic", apiKey⟩])
      | .ok c us => ((200, .aiOk c us), [⟨"anthropic", apiKey⟩])

/-- Hex digit value, as `decodeURIComponent` reads `%XX` escapes (char codes:
48-57 are the digits, 65-70 upper-case A-F, 97-102 lower-case a-f). -/
def hexVal (c : Char) : Option Nat :=
  let n := c.toNat
  if 48 ≤ n && n ≤ 57 then some (n - 48)
  else if 65 ≤ n && n ≤ 70 then some (n - 55)
  else if 97 ≤ n && n ≤ 102 then some (n - 87)
  else none

/-- Modelled from the spec: percent-decoding of one path segment, standing
in for the JavaScript built-in `decodeURIComponent` (byte-level: each valid
`%XX` escape becomes the character with that code, other characters pass
through; multi-byte UTF-8 recombination and the URIError on malformed
escapes are not modelled — no claim depends on them). -/
def percentDecodeChars : List Char → List Char
  | '%' :: h :: l :: rest =>
    match hexVal h, hexVal l with
    | some hv, some lv => Char.ofNat (16 * hv + lv) :: percentDecodeChars rest
    | _, _ => '%' :: percentDecodeChars (h :: l :: rest)
  | c :: rest => c :: percentDecodeChars rest
  | [] => []

/-- String-level wrapper for `percentDecodeChars`. -/
def decodeURIComponent (s : String) : String :=
  String.mk (percentDecodeChars s.toList)

/-- JS `s.split("/")` on the character list of `s` (segments as character
lists; splitting at every slash, so leading, trailing and doubled slashes
produce empty segments). -/
def splitSlash : List Char → List (List Char)
  | [] => [[]]
  | c :: rest =>
    if c = '/' then [] :: splitSlash rest
    else
      match splitSlash rest with
      | [] => [[c]]
      | seg :: segs => (c :: seg) :: segs

/-- JS `seg.startsWith(":")` on a segment's character list. -/
def headIsColon : List Char → Bool
  | ':' :: _ => true
  | _ => false

/-- JS `seg.slice(1)` on a segment's character list. -/
def segTail : List Char → List Char
  | [] => []
  | _ :: t => t

/-- The loop body of `matchRoute`: walk the pattern and path segments in
lockstep, binding each `:`-marked pattern segment to the percent-decoded
path segment and requiring every other segment to match literally. -/
def matchSegs : List (List Char) → List (List Char) →
    List (String × String) → Option (List (String × String))
  | [], [], params => some params
  | pa :: pas, pb :: pbs, params =>
    if headIsColon pa then
      matchSegs pas pbs
        (params ++ [(String.mk (segTail pa), decodeURIComponent (String.mk pb))])
    else if pa = pb then matchSegs pas pbs params
    else none
  | _, _, _ => none

/-- Models `matchRoute(method, pathname, pattern)`: the code first compares the
module-level `req_method` (set to the current request's method before
dispatch, passed here explicitly) against the wanted method, then requires
equal segment counts, then runs the segment loop. -/
def matchRoute (reqMethod method pathname pattern : String) :
    Option (List (String × String)) :=
  if reqMethod ≠ method then none
  else
    let patternParts := splitSlash pattern.toList
    let pathParts := splitSlash pathname.toList
    if patternParts.length ≠ pathParts.length then none
    else matchSegs patternParts pathParts []

/-- The handler a request reaches. -/
inductive Route where
  | options
  | index
  | getData
  | putData
  | listTickets
  | createTicket
  | updateTicket (id : String)
  | removeTicket (id : String)
  | listActivity
  | readSettings
  | writeSettings
  | aiPrompt
  | health
  | notFound
deriving DecidableEq

/-- Reading `m.id` from the params object `matchRoute` returns. -/
def paramGet (ps : List (String × String)) (k : String) : String :=
  match ps.find? (fun p => p.1 = k) with
  | some p => p.2
  | none => ""

/-- The dispatcher's if-chain, in source order: OPTIONS preflight first,
then each literal route, the two parameterised ticket routes via
`matchRoute`, and the final 404 fallback. -/
def dispatch (method pathname : String) : Route :=
  if method = "OPTIONS" then .options
  else if pathname = "/" ∧ method = "GET" then .index
  else if pathname = "/api/data" ∧ method = "GET" then .getData
  else if pathname = "/api/data" ∧ method = "PUT" then .putData
  else if pathname = "/api/tickets" ∧ method = "GET" then .listTickets
  else if pathname = "/api/tickets" ∧ method = "POST" then .createTicket
  else
    match matchRoute method "PUT" pathname "/api/tickets/:id" with
    | some ps => .updateTicket (paramGet ps "id")
    | none =>
      match matchRoute method "DELETE" pathname "/api/tickets/:id" with
      | some ps => .removeTicket (paramGet ps "id")
      | none =>
        if pathname = "/api/activity" ∧ method = "GET" then .listActivity
        else if pathname = "/api/settings" ∧ method = "GET" then .readSettings
        else if pathname = "/api/settings" ∧ method = "PUT" then .writeSettings
        else if pathname = "/api/ai/prompt" ∧ method = "POST" then .aiPrompt
        else if pathname = "/health" ∧ method = "GET" then .health
        else .notFound

/-- The response the dispatcher sends when no route matched. -/
def serveUnmatched : Nat × RespBody := (404, .errorR "Not found")

/-- Substring test used to state the settings-masking counterexample. -/
def listIsInfix (n : List Char) : List Char → Bool
  | [] => n.isEmpty
  | c :: rest => n.isPrefixOf (c :: rest) || listIsInfix n rest

/-- Whether `needle` occurs contiguously inside `hay`. -/
def strContains (hay needle : String) : Bool :=
  listIsInfix needle.toList hay.toList

theorem lookupTicket_append_none (ts : List StoredTicket) (row : StoredTicket)
    (s : String) (h : lookupTicket ts s = none) :
    lookupTicket (ts ++ [row]) s =
      if row.id = some s then some row else none := by
  induction ts with
  | nil => simp [lookupTicket]
  | cons tk rest ih =>
    by_cases hc : tk.id = some s
    · simp [lookupTicket, hc] at h
    · simp only [lookupTicket, hc, if_false, List.cons_append, if_neg hc] at h ⊢
      exact ih h

theorem lookupTicket_map_update (ts : List StoredTicket) (s : String)
    (ex : StoredTicket) (g : StoredTicket → StoredTicket)
    (hg : ∀ tk, (g tk).id = tk.id) (h : lookupTicket ts s = some ex) :
    lookupTicket (ts.map fun tk => if tk.id = some s then g tk else tk) s =
      some (g ex) := by
  induction ts with
  | nil => simp [lookupTicket] at h
  | cons tk rest ih =>
    by_cases hc : tk.id = some s
    · simp only [lookupTicket, hc, if_true, if_pos hc, Option.some.injEq] at h
      subst h
      simp [lookupTicket, hc, hg]
    · have h' : lookupTicket rest s = some ex := by
        simpa [lookupTicket, hc] using h
      simpa [lookupTicket, hc] using ih h'

theorem getSetting_upsert_self (st : List (String × String)) (k v : String) :
    getSetting (upsertSetting st k v) k = some v := by
  induction st with
  | nil => simp [upsertSetting, getSetting]
  | cons kv rest ih =>
    by_cases hc : kv.1 = k
    · simp [upsertSetting, getSetting, hc]
    · simp [upsertSetting, getSetting, hc, ih]

theorem getSetting_upsert_other (st : List (String × String)) (k v k' : String)
    (h : k' ≠ k) : getSetting (upsertSetting st k v) k' = getSetting st k' := by
  have hkk : ¬(k = k') := fun he => h he.symm
  induction st with
  | nil => simp [upsertSetting, getSetting, hkk]
  | cons kv rest ih =>
    by_cases hc : kv.1 = k
    · simp [upsertSetting, getSetting, hc, hkk]
    · simp [upsertSetting, getSetting, hc, ih]

theorem getSetting_delete_self (st : List (String × String)) (k : String) :
    getSetting (deleteSetting st k) k = none := by
  induction st with
  | nil => simp [deleteSetting, getSetting]
  | cons kv rest ih =>
    by_cases hc : kv.1 = k
    · simp [deleteSetting, getSetting, hc, ih]
    · simp [deleteSetting, getSetting, hc, ih]

theorem getSetting_delete_other (st : List (String × String)) (k k' : String)
    (h : k' ≠ k) : getSetting (deleteSetting st k) k' = getSetting st k' := by
  induction st with
  | nil => simp [deleteSetting, getSetting]
  | cons kv rest ih =>
    have hkk : ¬(k = k') := fun he => h he.symm
    by_cases hc : kv.1 = k
    · simp [deleteSetting, getSetting, hc, hkk, ih]
    · simp [deleteSetting, getSetting, hc, ih]

theorem getSetting_keyStep_other (st : List (String × String))
    (key : String) (v : JsVal) (k : String) (h : k ≠ key) :
    getSetting (settingsKeyStep st key v) k = getSetting st k := by
  cases v with
  | undef => rfl
  | null => exact getSetting_delete_other st key k h
  | str s =>
    by_cases hs : s = ""
    · simp [settingsKeyStep, hs, getSetting_delete_other st key k h]
    · simp [settingsKeyStep, hs, getSetting_upsert_other st key s k h]

theorem getSetting_keyStep_deleted (st : List (String × String))
    (key : String) (v : JsVal) (h : v = .null ∨ v = .str "") :
    getSetting (settingsKeyStep st key v) key = none := by
  rcases h with h | h <;> subst h <;>
    simp [settingsKeyStep, getSetting_delete_self]

theorem getSetting_keyStep_upserted (st : List (String × String))
    (key s : String) (h : s ≠ "") :
    getSetting (settingsKeyStep st key (.str s)) key = some s := by
  simp [settingsKeyStep, h, getSetting_upsert_self]

theorem insertAllTickets_ok (now : String) (l : List TicketBody)
    (acc ts : List StoredTicket) (h : insertAllTickets now acc l = .ok ts) :
    ts = acc ++ l.map (fun t => mkTicketRow (jsIdOpt t.id) t now) := by
  induction l generalizing acc with
  | nil =>
    simp only [insertAllTickets, Except.ok.injEq] at h
    simp [h.symm]
  | cons t rest ih =>
    cases hid : t.id with
    | undef => simp [insertAllTickets, insertTicketRow, hid] at h
    | null =>
      simp only [insertAllTickets, insertTicketRow, hid] at h
      have := ih _ h
      simp [this, hid, jsIdOpt]
    | str s =>
      cases hlk : lookupTicket acc s with
      | some tk => simp [insertAllTickets, insertTicketRow, hid, hlk] at h
      | none =>
        simp only [insertAllTickets, insertTicketRow, hid, hlk] at h
        have := ih _ h
        simp [this, hid, jsIdOpt]

theorem matchSegs_isSome (ps : List (List Char)) :
    ∀ (qs : List (List Char)) (acc : List (String × String)),
      ((matchSegs ps qs acc).isSome = true ↔
        List.Forall₂ (fun pa pb => headIsColon pa = true ∨ pa = pb) ps qs) := by
  induction ps with
  | nil =>
    intro qs acc
    cases qs <;> simp [matchSegs]
  | cons pa pas ih =>
    intro qs acc
    cases qs with
    | nil => simp [matchSegs]
    | cons pb pbs =>
      by_cases hc : headIsColon pa = true
      · simp [matchSegs, hc, ih, List.forall₂_cons]
      · by_cases he : pa = pb
        · subst he
          simp [matchSegs, hc, ih, List.forall₂_cons]
        · simp [matchSegs, hc, he, List.forall₂_cons]

theorem settingsThemeStep_falsy (st : List (String × String)) (v : JsVal)
    (h : JsVal.truthy v = false) : settingsThemeStep st v = st := by
  cases v with
  | str s => simp_all [settingsThemeStep, JsVal.truthy]
  | undef => rfl
  | null => rfl

theorem getSetting_themeStep_other (st : List (String × String)) (v : JsVal)
    (k : String) (h : k ≠ "theme") :
    getSetting (settingsThemeStep st v) k = getSetting st k := by
  cases v with
  | str s =>
    by_cases hs : s = ""
    · simp [settingsThemeStep, hs]
    · simp [settingsThemeStep, hs, getSetting_upsert_other st "theme" s k h]
  | undef => rfl
  | null => rfl

theorem putSettingsHandler_fst (st : List (String × String))
    (b : SettingsBody) :
    (putSettingsHandler st b).1 =
      settingsKeyStep
        (settingsKeyStep (settingsThemeStep st b.theme) "anthropic_api_key"
          b.anthropic_api_key)
        "openai_api_key" b.openai_api_key := rfl

theorem matchRoute_isSome (rm m pn pat : String) :
    ((matchRoute rm m pn pat).isSome = true ↔
      (rm = m ∧ List.Forall₂ (fun pa pb => headIsColon pa = true ∨ pa = pb)
        (splitSlash pat.toList) (splitSlash pn.toList))) := by
  unfold matchRoute
  split
  next h1 => simp [fun he => h1 he]
  next h1 =>
    push_neg at h1
    dsimp only
    split
    next h2 =>
      simp only [Option.isSome_none, Bool.false_eq_true, false_iff, not_and]
      intro _ hf
      exact h2 hf.length_eq
    next h2 =>
      push_neg at h2
      simp [h1, matchSegs_isSome]

/-- C2: a `POST /api/tickets` whose body carries only an id and a title (the
id fresh) stores a row with every documented default applied
(`description`, `area`, `subarea`, `assignee`, `files` empty, `type`
"feature", `priority` "medium", `status` "open"), with
`createdAt = updatedAt` at creation, and answers 201 with the created
ticket. -/
theorem post_ticket_defaults (st : DB) (idStr title now : String)
    (h : lookupTicket st.tickets idStr = none) :
    postTicketHandler st { id := .str idStr, title := some title } now =
      ({ st with tickets :=
          st.tickets ++
            [mkTicketRow (some idStr)
              { id := .str idStr, title := some title } now] },
       (201, .ticketR (some (mkTicketRow (some idStr)
          { id := .str idStr, title := some title } now)))) ∧
    mkTicketRow (some idStr) { id := .str idStr, title := some title } now =
      { id := some idStr, title := title, description := "", type := "feature",
        priority := "medium", status := "open", area := "", subarea := "",
        assignee := "", files := "", createdAt := now, updatedAt := now } ∧
    (mkTicketRow (some idStr)
      { id := .str idStr, title := some title } now).createdAt =
      (mkTicketRow (some idStr)
        { id := .str idStr, title := some title } now).updatedAt := by
  have hins : insertTicketRow st.tickets
      { id := .str idStr, title := some title } now =
      .ok (st.tickets ++
        [mkTicketRow (some idStr) { id := .str idStr, title := some title } now]) := by
    simp [insertTicketRow, h]
  refine ⟨?_, ?_, rfl⟩
  · simp [postTicketHandler, hins, lookupTicket_append_none _ _ _ h, mkTicketRow]
  · by_cases ht : title = "" <;> simp [mkTicketRow, jsOr, ht]

/-- C2 witness: a concrete creation against the empty store. -/
theorem post_ticket_defaults_witness :
    postTicketHandler {} { id := .str "T-1", title := some "Hello" } "2025-01-01" =
      (({ tickets := [mkTicketRow (some "T-1")
          { id := .str "T-1", title := some "Hello" } "2025-01-01"] } : DB),
       (201, .ticketR (some (mkTicketRow (some "T-1")
          { id := .str "T-1", title := some "Hello" } "2025-01-01")))) ∧
    mkTicketRow (some "T-1")
        { id := .str "T-1", title := some "Hello" } "2025-01-01" =
      { id := some "T-1", title := "Hello", description := "",
        type := "feature", priority := "medium", status := "open", area := "",
        subarea := "", assignee := "", files := "", createdAt := "2025-01-01",
        updatedAt := "2025-01-01" } := by
  have h := post_ticket_defaults {} "T-1" "Hello" "2025-01-01" rfl
  exact ⟨h.1, h.2.1⟩

/-- C4: a `PUT` or `DELETE` on `/api/tickets/:id` whose id matches no stored
ticket answers 404 `Ticket not found` and leaves the whole store untouched —
in particular no `_activity` entry supplied in the body is appended. -/
theorem unknown_id_not_found (st : DB) (idStr : String) (t : TicketBody)
    (now : String) (a : Option StoredActivity)
    (h : lookupTicket st.tickets idStr = none) :
    putTicketHandler st idStr t now = (st, (404, .errorR "Ticket not found")) ∧
    deleteTicketHandler st idStr a =
      (st, (404, .errorR "Ticket not found")) := by
  constructor
  · simp [putTicketHandler, h]
  · simp [deleteTicketHandler, h]

/-- C4 witness: a concrete miss against the empty store, with an
`_activity` entry supplied in the delete body. -/
theorem unknown_id_not_found_witness :
    putTicketHandler {} "T-9" {} "N" =
      (({} : DB), (404, .errorR "Ticket not found")) ∧
    deleteTicketHandler {} "T-9"
        (some { action := "deleted", ticketId := some "T-9", title := "t",
                time := "N" }) =
      (({} : DB), (404, .errorR "Ticket not found")) :=
  unknown_id_not_found {} "T-9" {} "N"
    (some { action := "deleted", ticketId := some "T-9", title := "t",
            time := "N" }) rfl

/-- C10: in a `PUT /api/settings`, a falsy API-key field value (empty string
or null) deletes that key's settings row, a non-empty string upserts it, an
absent field leaves it untouched, a falsy theme leaves the stored theme
unchanged, and the response is always 200 `{ok:true}`. -/
theorem put_settings_semantics (st : List (String × String))
    (b : SettingsBody) :
    (putSettingsHandler st b).2 = (200, .okTrue) ∧
    ((b.anthropic_api_key = .null ∨ b.anthropic_api_key = .str "") →
      getSetting (putSettingsHandler st b).1 "anthropic_api_key" = none) ∧
    (∀ s, s ≠ "" → b.anthropic_api_key = .str s →
      getSetting (putSettingsHandler st b).1 "anthropic_api_key" = some s) ∧
    (b.anthropic_api_key = .undef →
      getSetting (putSettingsHandler st b).1 "anthropic_api_key" =
        getSetting st "anthropic_api_key") ∧
    ((b.openai_api_key = .null ∨ b.openai_api_key = .str "") →
      getSetting (putSettingsHandler st b).1 "openai_api_key" = none) ∧
    (∀ s, s ≠ "" → b.openai_api_key = .str s →
      getSetting (putSettingsHandler st b).1 "openai_api_key" = some s) ∧
    (b.openai_api_key = .undef →
      getSetting (putSettingsHandler st b).1 "openai_api_key" =
        getSetting st "openai_api_key") ∧
    (b.theme.truthy = false →
      getSetting (putSettingsHandler st b).1 "theme" = getSetting st "theme") := by
  have hao : ("anthropic_api_key" : String) ≠ "openai_api_key" := by decide
  have hoa : ("openai_api_key" : String) ≠ "anthropic_api_key" := by decide
  have hta : ("theme" : String) ≠ "anthropic_api_key" := by decide
  have hto : ("theme" : String) ≠ "openai_api_key" := by decide
  have htha : ("anthropic_api_key" : String) ≠ "theme" := by decide
  have htho : ("openai_api_key" : String) ≠ "theme" := by decide
  refine ⟨rfl, ?_, ?_, ?_, ?_, ?_, ?_, ?_⟩
  · intro hd
    rw [putSettingsHandler_fst, getSetting_keyStep_other _ _ _ _ hao]
    exact getSetting_keyStep_deleted _ _ _ hd
  · intro s hs hb
    rw [putSettingsHandler_fst, getSetting_keyStep_other _ _ _ _ hao, hb]
    exact getSetting_keyStep_upserted _ _ _ hs
  · intro hu
    rw [putSettingsHandler_fst, getSetting_keyStep_other _ _ _ _ hao, hu]
    exact getSetting_themeStep_other _ _ _ htha
  · intro hd
    rw [putSettingsHandler_fst]
    exact getSetting_keyStep_deleted _ _ _ hd
  · intro s hs hb
    rw [putSettingsHandler_fst, hb]
    exact getSetting_keyStep_upserted _ _ _ hs
  · intro hu
    rw [putSettingsHandler_fst, hu]
    show getSetting
      (settingsKeyStep (settingsThemeStep st b.theme) "anthropic_api_key"
        b.anthropic_api_key) "openai_api_key" = getSetting st "openai_api_key"
    rw [getSetting_keyStep_other _ _ _ _ hoa]
    exact getSetting_themeStep_other _ _ _ htho
  · intro ht
    rw [putSettingsHandler_fst, getSetting_keyStep_other _ _ _ _ hto,
      getSetting_keyStep_other _ _ _ _ hta, settingsThemeStep_falsy _ _ ht]

/-- C10 witness: a concrete settings PUT that supplies an empty Anthropic
key (deleting the stored one), a fresh OpenAI key, and no theme. -/
theorem put_settings_semantics_witness :
    (putSettingsHandler [("theme", "dark"), ("anthropic_api_key", "old")]
        { anthropic_api_key := .str "", openai_api_key := .str "sk-new" }).2 =
      (200, .okTrue) ∧
    getSetting (putSettingsHandler
        [("theme", "dark"), ("anthropic_api_key", "old")]
        { anthropic_api_key := .str "", openai_api_key := .str "sk-new" }).1
      "anthropic_api_key" = none ∧
    getSetting (putSettingsHandler
        [("theme", "dark"), ("anthropic_api_key", "old")]
        { anthropic_api_key := .str "", openai_api_key := .str "sk-new" }).1
      "openai_api_key" = some "sk-new" ∧
    getSetting (putSettingsHandler
        [("theme", "dark"), ("anthropic_api_key", "old")]
        { anthropic_api_key := .str "", openai_api_key := .str "sk-new" }).1
      "theme" = getSetting [("theme", "dark"), ("anthropic_api_key", "old")]
        "theme" := by
  have h := put_settings_semantics
    [("theme", "dark"), ("anthropic_api_key", "old")]
    { anthropic_api_key := .str "", openai_api_key := .str "sk-new" }
  exact ⟨h.1, h.2.1 (Or.inr rfl), h.2.2.2.2.2.1 "sk-new" (by decide) rfl,
    h.2.2.2.2.2.2.2 rfl⟩

/-- C8 counterexample: with the four-character Anthropic key "abcd" stored,
the settings response's masked hint is "sk-ant-•••abcd", which contains the
full secret — refuting the claim that the response never contains it. -/
theorem settings_mask_contains_secret_cex :
    (getSettingsHandler [("anthropic_api_key", "abcd")]).2.anthropicKeyHint =
      "sk-ant-•••abcd" ∧
    strContains
      (getSettingsHandler [("anthropic_api_key", "abcd")]).2.anthropicKeyHint
      "abcd" = true := by
  decide

/-- C8 amended: the settings read reveals at most the last four characters
of a stored key — the response is identical for any two non-empty keys
agreeing on their last four characters, the hint is exactly
"sk-ant-•••" plus those four characters once a key is set, and it is empty
(with the presence flag false) when no key is set.  (A key of length at most
four, or one overlapping the mask, therefore still appears in full.) -/
theorem settings_mask_amended (st : List (String × String)) (k₁ k₂ : String)
    (h1 : k₁ ≠ "") (h2 : k₂ ≠ "") (h3 : k₁.takeRight 4 = k₂.takeRight 4) :
    getSettingsHandler (upsertSetting st "anthropic_api_key" k₁) =
      getSettingsHandler (upsertSetting st "anthropic_api_key" k₂) ∧
    (∀ st', getSetting st' "anthropic_api_key" = none →
      (getSettingsHandler st').2.anthropicKeyHint = "" ∧
      (getSettingsHandler st').2.hasAnthropicKey = false) ∧
    (∀ st' k, getSetting st' "anthropic_api_key" = some k → k ≠ "" →
      (getSettingsHandler st').2.anthropicKeyHint =
        "sk-ant-•••" ++ k.takeRight 4 ∧
      (getSettingsHandler st').2.hasAnthropicKey = true) := by
  have hta : ("theme" : String) ≠ "anthropic_api_key" := by decide
  have hoa : ("openai_api_key" : String) ≠ "anthropic_api_key" := by decide
  refine ⟨?_, ?_, ?_⟩
  · have e1 : ∀ v, getSetting (upsertSetting st "anthropic_api_key" v)
        "theme" = getSetting st "theme" :=
      fun v => getSetting_upsert_other st _ v _ hta
    have e2 : ∀ v, getSetting (upsertSetting st "anthropic_api_key" v)
        "openai_api_key" = getSetting st "openai_api_key" :=
      fun v => getSetting_upsert_other st _ v _ hoa
    simp [getSettingsHandler, getSetting_upsert_self, e1, e2, h1, h2, h3]
  · intro st' hn
    simp [getSettingsHandler, hn]
  · intro st' k hk hk'
    simp [getSettingsHandler, hk, hk']

/-- C8 witness: two concrete keys sharing their last four characters give
byte-identical settings responses. -/
theorem settings_mask_amended_witness :
    getSettingsHandler (upsertSetting [] "anthropic_api_key" "sk-first-1234") =
      getSettingsHandler
        (upsertSetting [] "anthropic_api_key" "sk-other-1234") :=
  (settings_mask_amended [] "sk-first-1234" "sk-other-1234" (by decide)
    (by decide) (by decide)).1

/-- C1 counterexample: a full-sync body carrying 150 activity entries leaves
all 150 rows in the activity table — the retention bound does not hold on
the full-sync insertion path. -/
theorem bulkSync_activity_unbounded_cex :
    ¬ ((putDataHandler {}
        { tickets := some [],
          activity := some (List.replicate 150
            { action := some "a", title := some "t", time := some "0" }) }
        "T0").1.activity.length ≤ 100) := by
  decide

/-- C1 amended: the append-and-trim path the three ticket mutation handlers
use keeps the activity table at no more than 100 rows; 150 successive
appends starting from the empty store leave exactly the 100 most recently
inserted entries, listed newest-first; the activity listing never returns
more than 100 rows; but the full-sync path stores the caller's activity
entries wholesale, without trimming. -/
theorem activity_retention_amended :
    (∀ st a, ((logActivity st a).activity.length ≤ 100)) ∧
    (∀ l, (recentActivity l).length ≤ 100) ∧
    ((((List.range 150).map (fun i =>
        ({ action := "a", ticketId := none, title := "t", time := toString i }
          : StoredActivity))).foldl logActivity {}).activity =
      ((List.range 150).map (fun i =>
        ({ action := "a", ticketId := none, title := "t", time := toString i }
          : StoredActivity))).drop 50) ∧
    (recentActivity (((List.range 150).map (fun i =>
        ({ action := "a", ticketId := none, title := "t", time := toString i }
          : StoredActivity))).foldl logActivity {}).activity =
      (((List.range 150).map (fun i =>
        ({ action := "a", ticketId := none, title := "t", time := toString i }
          : StoredActivity))).drop 50).reverse) ∧
    (∀ st d now ts acts, bulkSyncCore d now = .ok (ts, acts) →
      (putDataHandler st d now).1.activity =
        (d.activity.getD []).map (fun a => mkActivityRow a now)) := by
  refine ⟨?_, ?_, by decide, by decide, ?_⟩
  · intro st a
    simp [logActivity, trimActivity]
    omega
  · intro l
    simp [recentActivity]
  · intro st d now ts acts hok
    have h1 : (putDataHandler st d now).1.activity = acts := by
      simp [putDataHandler, hok]
    rw [h1]
    cases hins : insertAllTickets now [] (d.tickets.getD []) with
    | error e => simp [bulkSyncCore, hins] at hok
    | ok ts' =>
      simp only [bulkSyncCore, hins, Except.ok.injEq, Prod.mk.injEq] at hok
      exact hok.2.symm

/-- C1 witness: the full-sync conjunct applied to a concrete empty sync. -/
theorem activity_retention_amended_witness :
    (putDataHandler {} { tickets := some [], activity := some [] } "T").1.activity = [] :=
  activity_retention_amended.2.2.2.2 {}
    { tickets := some [], activity := some [] } "T" [] [] rfl

/-- C6: the full sync is atomic — for every prior state and body, either the
transaction body fails and the handler answers 500 leaving the store exactly
as it was, or it succeeds, every supplied ticket and activity row lands (in
order, with defaults applied), the previous tickets and activity are gone,
and the handler answers 200 `{ok:true}`. -/
theorem bulkSync_atomic (st : DB) (d : SyncBody) (now : String) :
    (∃ e, bulkSyncCore d now = .error e ∧
      putDataHandler st d now = (st, (500, .errorR e))) ∨
    (∃ ts, bulkSyncCore d now =
        .ok (ts, (d.activity.getD []).map (fun a => mkActivityRow a now)) ∧
      ts = (d.tickets.getD []).map (fun t => mkTicketRow (jsIdOpt t.id) t now) ∧
      putDataHandler st d now =
        ({ tickets := ts,
           activity := (d.activity.getD []).map (fun a => mkActivityRow a now),
           settings := st.settings }, (200, .okTrue))) := by
  cases hins : insertAllTickets now [] (d.tickets.getD []) with
  | error e =>
    left
    have hc : bulkSyncCore d now = .error e := by
      simp [bulkSyncCore, hins]
    exact ⟨e, hc, by simp [putDataHandler, hc]⟩
  | ok ts =>
    right
    have hc : bulkSyncCore d now =
        .ok (ts, (d.activity.getD []).map (fun a => mkActivityRow a now)) := by
      simp [bulkSyncCore, hins]
    refine ⟨ts, hc, ?_, ?_⟩
    · simpa using insertAllTickets_ok now (d.tickets.getD []) [] ts hins
    · simp [putDataHandler, hc]

/-- C5: a full-sync PUT carrying tickets `[A, B]` (distinct string ids, `A`
created no earlier than `B`) and activity `[X]` answers 200, and a
subsequent `GET /api/data` returns exactly those two tickets (defaults
applied, newest-created first), exactly that activity entry, and an empty
`kbNotes` — everything stored before the sync is gone. -/
theorem full_sync_roundtrip (st : DB) (A B : TicketBody) (X : ActivityBody)
    (now a b : String) (hA : A.id = .str a) (hB : B.id = .str b)
    (hab : a ≠ b)
    (horder : sqliteTextLe (jsOr B.createdAt now) (jsOr A.createdAt now) = true) :
    (putDataHandler st { tickets := some [A, B], activity := some [X] } now).2 =
      (200, .okTrue) ∧
    getDataHandler
        (putDataHandler st
          { tickets := some [A, B], activity := some [X] } now).1 =
      (200, .dataR [mkTicketRow (some a) A now, mkTicketRow (some b) B now]
        [mkActivityRow X now] []) := by
  have hsync : bulkSyncCore { tickets := some [A, B], activity := some [X] } now =
      .ok ([mkTicketRow (some a) A now, mkTicketRow (some b) B now],
        [mkActivityRow X now]) := by
    simp [bulkSyncCore, insertAllTickets, insertTicketRow, hA, hB,
      lookupTicket, mkTicketRow, hab]
  constructor
  · simp [putDataHandler, hsync]
  · simp only [putDataHandler, hsync]
    simp [getDataHandler, sortByCreatedDesc, insertByCreatedDesc,
      recentActivity, mkTicketRow, horder]

/-- Concrete prior store used by the C5 witness. -/
def witnessPriorStore : DB :=
  { tickets :=
      [{ id := some "OLD", title := "old", description := "", type := "bug",
         priority := "low", status := "closed", area := "", subarea := "",
         assignee := "", files := "", createdAt := "2020-01-01",
         updatedAt := "2020-01-01" }],
    activity :=
      [{ action := "stale", ticketId := none, title := "s",
         time := "2020-01-01" }] }

/-- First ticket of the C5 witness sync body. -/
def witnessTicketA : TicketBody :=
  { id := .str "A1", title := some "first", createdAt := some "2025-02-01" }

/-- Second ticket of the C5 witness sync body. -/
def witnessTicketB : TicketBody :=
  { id := .str "B1", title := some "second", createdAt := some "2025-01-01" }

/-- Activity entry of the C5 witness sync body. -/
def witnessActivityX : ActivityBody :=
  { action := some "created" }

/-- C5 witness: a concrete sync of two tickets and one activity entry over a
non-empty prior store. -/
theorem full_sync_roundtrip_witness :
    getDataHandler
        (putDataHandler witnessPriorStore
          { tickets := some [witnessTicketA, witnessTicketB],
            activity := some [witnessActivityX] } "2025-03-01").1 =
      (200, .dataR
        [mkTicketRow (some "A1") witnessTicketA "2025-03-01",
         mkTicketRow (some "B1") witnessTicketB "2025-03-01"]
        [mkActivityRow witnessActivityX "2025-03-01"] []) :=
  (full_sync_roundtrip witnessPriorStore witnessTicketA witnessTicketB
    witnessActivityX "2025-03-01" "A1" "B1" rfl rfl (by decide) (by decide)).2

/-- C3: a `PUT /api/tickets/:id` on an existing ticket with a partial body
changes only the supplied fields — each field absent from the body keeps the
prior value, `createdAt` and the id are untouched, `updatedAt` is refreshed
(to the request clock when not supplied) — and the handler answers 200 with
the updated ticket; the activity and settings tables are unchanged when no
`_activity` entry is supplied. -/
theorem put_ticket_merge_update (st : DB) (idStr : String) (t : TicketBody)
    (now : String) (ex : StoredTicket)
    (h : lookupTicket st.tickets idStr = some ex)
    (ha : t._activity = none) :
    putTicketHandler st idStr t now =
      ({ st with tickets := st.tickets.map (fun tk =>
          if tk.id = some idStr then applyTicketUpdate t ex now tk else tk) },
       (200, .ticketR (some (applyTicketUpdate t ex now ex)))) ∧
    (applyTicketUpdate t ex now ex).id = ex.id ∧
    (applyTicketUpdate t ex now ex).createdAt = ex.createdAt ∧
    (t.title = none → (applyTicketUpdate t ex now ex).title = ex.title) ∧
    (t.description = none →
      (applyTicketUpdate t ex now ex).description = ex.description) ∧
    (t.type = none → (applyTicketUpdate t ex now ex).type = ex.type) ∧
    (t.priority = none →
      (applyTicketUpdate t ex now ex).priority = ex.priority) ∧
    (t.status = none → (applyTicketUpdate t ex now ex).status = ex.status) ∧
    (t.area = none → (applyTicketUpdate t ex now ex).area = ex.area) ∧
    (t.subarea = none →
      (applyTicketUpdate t ex now ex).subarea = ex.subarea) ∧
    (t.assignee = none →
      (applyTicketUpdate t ex now ex).assignee = ex.assignee) ∧
    (t.files = none → (applyTicketUpdate t ex now ex).files = ex.files) ∧
    (∀ s, t.title = some s → (applyTicketUpdate t ex now ex).title = s) ∧
    (∀ s, t.description = some s →
      (applyTicketUpdate t ex now ex).description = s) ∧
    (∀ s, t.type = some s → (applyTicketUpdate t ex now ex).type = s) ∧
    (∀ s, t.priority = some s →
      (applyTicketUpdate t ex now ex).priority = s) ∧
    (∀ s, t.status = some s → (applyTicketUpdate t ex now ex).status = s) ∧
    (∀ s, t.area = some s → (applyTicketUpdate t ex now ex).area = s) ∧
    (∀ s, t.subarea = some s →
      (applyTicketUpdate t ex now ex).subarea = s) ∧
    (∀ s, t.assignee = some s →
      (applyTicketUpdate t ex now ex).assignee = s) ∧
    (∀ s, t.files = some s → (applyTicketUpdate t ex now ex).files = s) ∧
    (t.updatedAt = none → (applyTicketUpdate t ex now ex).updatedAt = now) ∧
    (∀ s, s ≠ "" → t.updatedAt = some s →
      (applyTicketUpdate t ex now ex).updatedAt = s) := by
  have hresp := lookupTicket_map_update st.tickets idStr ex
    (applyTicketUpdate t ex now) (fun tk => rfl) h
  refine ⟨?_, rfl, rfl, ?_, ?_, ?_, ?_, ?_, ?_, ?_, ?_, ?_, ?_, ?_, ?_, ?_,
    ?_, ?_, ?_, ?_, ?_, ?_, ?_⟩
  · simp [putTicketHandler, h, ha, hresp]
  all_goals
    first
    | (intro s hs hf; simp [applyTicketUpdate, jsOr, hf, hs])
    | (intro s hf; simp [applyTicketUpdate, jsOr, hf])
    | (intro hf; simp [applyTicketUpdate, jsOr, hf])

/-- Concrete stored ticket used by the C3 witness. -/
def witnessExisting : StoredTicket :=
  { id := some "T-1", title := "Old", description := "D", type := "bug",
    priority := "high", status := "open", area := "ar", subarea := "sub",
    assignee := "me", files := "f", createdAt := "2025-01-01",
    updatedAt := "2025-01-02" }

/-- C3 witness: updating only the status of a concrete stored ticket keeps
every omitted field, refreshes `updatedAt`, and answers 200 with the updated
ticket. -/
theorem put_ticket_merge_update_witness :
    (putTicketHandler { tickets := [witnessExisting] } "T-1"
        { status := some "closed" } "2025-02-01").2 =
      (200, .ticketR (some (applyTicketUpdate { status := some "closed" }
        witnessExisting "2025-02-01" witnessExisting))) ∧
    (applyTicketUpdate { status := some "closed" } witnessExisting
      "2025-02-01" witnessExisting).title = "Old" ∧
    (applyTicketUpdate { status := some "closed" } witnessExisting
      "2025-02-01" witnessExisting).status = "closed" ∧
    (applyTicketUpdate { status := some "closed" } witnessExisting
      "2025-02-01" witnessExisting).createdAt = "2025-01-01" ∧
    (applyTicketUpdate { status := some "closed" } witnessExisting
      "2025-02-01" witnessExisting).updatedAt = "2025-02-01" := by
  have h := put_ticket_merge_update { tickets := [witnessExisting] } "T-1"
    { status := some "closed" } "2025-02-01" witnessExisting (by decide) rfl
  exact ⟨congrArg (fun p => p.2) h.1, h.2.2.2.1 rfl, h.2.2.2.2.2.2.2.2.2.2.2.2.2.2.2.2.1 "closed" rfl,
    h.2.2.1, h.2.2.2.2.2.2.2.2.2.2.2.2.2.2.2.2.2.2.2.2.2.1 rfl⟩

/-- C7 counterexample: `matchRoute` matches `/api/tickets/` against
`/api/tickets/:id`, binding the empty path segment as `id = ""` — refuting
the requirement that a parameter-marked segment match only a non-empty
segment. -/
theorem matchRoute_empty_segment_cex :
    matchRoute "PUT" "PUT" "/api/tickets/" "/api/tickets/:id" =
      some [("id", "")] := by
  decide

/-- C7 amended: the route matcher succeeds exactly when the request method
matches and, after splitting both strings on "/", the segment lists pair up
with every literal pattern segment equal to its path segment and every
`:`-marked pattern segment matching any path segment — the empty segment
included — which it binds percent-decoded; and a request matching no route
(and none of the literal endpoints) falls through the dispatcher to the 404
`Not found` response. -/
theorem route_matching_amended :
    (∀ rm m pn pat, (matchRoute rm m pn pat).isSome = true ↔
      (rm = m ∧ List.Forall₂ (fun pa pb => headIsColon pa = true ∨ pa = pb)
        (splitSlash pat.toList) (splitSlash pn.toList))) ∧
    (∀ m p, m ≠ "OPTIONS" → ¬(p = "/" ∧ m = "GET") →
      ¬(p = "/api/data" ∧ m = "GET") → ¬(p = "/api/data" ∧ m = "PUT") →
      ¬(p = "/api/tickets" ∧ m = "GET") →
      ¬(p = "/api/tickets" ∧ m = "POST") →
      matchRoute m "PUT" p "/api/tickets/:id" = none →
      matchRoute m "DELETE" p "/api/tickets/:id" = none →
      ¬(p = "/api/activity" ∧ m = "GET") →
      ¬(p = "/api/settings" ∧ m = "GET") →
      ¬(p = "/api/settings" ∧ m = "PUT") →
      ¬(p = "/api/ai/prompt" ∧ m = "POST") → ¬(p = "/health" ∧ m = "GET") →
      dispatch m p = .notFound) ∧
    serveUnmatched = (404, .errorR "Not found") := by
  refine ⟨matchRoute_isSome, ?_, rfl⟩
  intro m p h1 h2 h3 h4 h5 h6 h7 h8 h9 h10 h11 h12 h13
  simp [dispatch, h1, h2, h3, h4, h5, h6, h7, h8, h9, h10, h11, h12, h13]

/-- C7 witness: a concrete request matching no route is dispatched to the
404 fallback. -/
theorem route_matching_amended_witness :
    dispatch "GET" "/nope" = Route.notFound :=
  route_matching_amended.2.1 "GET" "/nope" (by decide) (by decide) (by decide)
    (by decide) (by decide) (by decide) (by decide) (by decide) (by decide)
    (by decide) (by decide) (by decide) (by decide)

/-- C9: the AI proxy resolves its key exclusively from server-held settings
on the OpenAI path (the body's `apiKey` is ignored there) and from the
request body, falling back to settings, on the Anthropic path; when no key
resolves it answers 400 with an explanatory message and makes no outbound
call; when a key resolves it makes exactly one outbound call carrying that
key, and the outcome is exactly one of: key-missing 400, upstream error
(its status, or 500 when the upstream gave none), or 200 with content —
with a transport error mapped to 500 with the failure reason and a parsed
upstream error status of 400 or above mirrored verbatim. -/
theorem ai_prompt_key_resolution (body : AiBody)
    (settings : List (String × String)) (u : UpstreamEvent) :
    (jsOr body.provider "anthropic" = "openai" →
      (∀ k, aiPromptHandler { body with apiKey := k } settings u =
        aiPromptHandler body settings u) ∧
      ((getSetting settings "openai_api_key").getD "" = "" →
        aiPromptHandler body settings u = ((400, .errorR
          "No OpenAI API key configured. Add one in the Prompt Lab settings."),
          [])) ∧
      ((getSetting settings "openai_api_key").getD "" ≠ "" →
        (aiPromptHandler body settings u).2 =
          [⟨"openai", (getSetting settings "openai_api_key").getD ""⟩])) ∧
    (jsOr body.provider "anthropic" ≠ "openai" →
      (jsOr body.apiKey ((getSetting settings "anthropic_api_key").getD "") =
          "" →
        aiPromptHandler body settings u = ((400, .errorR
          "No Anthropic API key configured. Add one in the Prompt Lab settings."),
          [])) ∧
      (jsOr body.apiKey ((getSetting settings "anthropic_api_key").getD "") ≠
          "" →
        (aiPromptHandler body settings u).2 =
          [⟨"anthropic",
            jsOr body.apiKey
              ((getSetting settings "anthropic_api_key").getD "")⟩])) ∧
    ((∃ msg, aiPromptHandler body settings u = ((400, .errorR msg), [])) ∨
      ((aiPromptHandler body settings u).2.length = 1 ∧
        ((∃ c us, (aiPromptHandler body settings u).1 = (200, .aiOk c us)) ∨
          (∃ s msg, (aiPromptHandler body settings u).1 =
            (jsOrNat s 500, .errorR msg))))) ∧
    (∀ em, u = .transportError em →
      (aiPromptHandler body settings u).2.length = 1 →
      (aiPromptHandler body settings u).1 = (500, .errorR em)) ∧
    (∀ status p, u = .response status (some p) → 400 ≤ status →
      (aiPromptHandler body settings u).2.length = 1 →
      (aiPromptHandler body settings u).1 =
        (jsOrNat (some status) 500,
          .errorR (jsOr p.errorMessage ("API error " ++ toString status)))) := by
  by_cases hp : jsOr body.provider "anthropic" = "openai"
  · by_cases hk : (getSetting settings "openai_api_key").getD "" = ""
    · refine ⟨fun _ => ⟨?_, fun _ => ?_, fun hk' => absurd hk hk'⟩,
        fun hp' => absurd hp hp', ?_, ?_, ?_⟩
      · simp [aiPromptHandler, hp, hk]
      · simp [aiPromptHandler, hp, hk]
      · exact Or.inl
          ⟨"No OpenAI API key configured. Add one in the Prompt Lab settings.",
            by simp [aiPromptHandler, hp, hk]⟩
      · intro em hu hc
        rw [show aiPromptHandler body settings u = ((400, .errorR
          "No OpenAI API key configured. Add one in the Prompt Lab settings."),
          []) from by simp [aiPromptHandler, hp, hk]] at hc
        simp at hc
      · intro status pu hu hs hc
        rw [show aiPromptHandler body settings u = ((400, .errorR
          "No OpenAI API key configured. Add one in the Prompt Lab settings."),
          []) from by simp [aiPromptHandler, hp, hk]] at hc
        simp at hc
    · have hmain : ∀ u', aiPromptHandler body settings u' =
          (match upstreamResult "Failed to parse OpenAI response" u' with
           | .err m s => ((jsOrNat s 500, .errorR m),
              [⟨"openai", (getSetting settings "openai_api_key").getD ""⟩])
           | .ok c us => ((200, .aiOk c us),
              [⟨"openai", (getSetting settings "openai_api_key").getD ""⟩])) := by
        intro u'
        simp [aiPromptHandler, hp, hk]
      refine ⟨fun _ => ⟨?_, fun hk' => absurd hk' hk, fun _ => ?_⟩,
        fun hp' => absurd hp hp', ?_, ?_, ?_⟩
      · simp [aiPromptHandler, hp, hk]
      · rw [hmain u]
        cases upstreamResult "Failed to parse OpenAI response" u <;> simp
      · right
        rw [hmain u]
        cases hres : upstreamResult "Failed to parse OpenAI response" u with
        | err m s => exact ⟨by simp, Or.inr ⟨s, m, by simp⟩⟩
        | ok c us => exact ⟨by simp, Or.inl ⟨c, us, by simp⟩⟩
      · intro em hu _
        subst hu
        rw [hmain]
        simp [upstreamResult, jsOrNat]
      · intro status pu hu hs _
        subst hu
        rw [hmain]
        simp [upstreamResult, hs]
  · by_cases hk :
      jsOr body.apiKey ((getSetting settings "anthropic_api_key").getD "") = ""
    · refine ⟨fun hp' => absurd hp' hp,
        fun _ => ⟨fun _ => ?_, fun hk' => absurd hk hk'⟩, ?_, ?_, ?_⟩
      · simp [aiPromptHandler, hp, hk]
      · exact Or.inl
          ⟨"No Anthropic API key configured. Add one in the Prompt Lab settings.",
            by simp [aiPromptHandler, hp, hk]⟩
      · intro em hu hc
        rw [show aiPromptHandler body settings u = ((400, .errorR
          "No Anthropic API key configured. Add one in the Prompt Lab settings."),
          []) from by simp [aiPromptHandler, hp, hk]] at hc
        simp at hc
      · intro status pu hu hs hc
        rw [show aiPromptHandler body settings u = ((400, .errorR
          "No Anthropic API key configured. Add one in the Prompt Lab settings."),
          []) from by simp [aiPromptHandler, hp, hk]] at hc
        simp at hc
    · have hmain : ∀ u', aiPromptHandler body settings u' =
          (match upstreamResult "Failed to parse API response" u' with
           | .err m s => ((jsOrNat s 500, .errorR m),
              [⟨"anthropic",
                jsOr body.apiKey
                  ((getSetting settings "anthropic_api_key").getD "")⟩])
           | .ok c us => ((200, .aiOk c us),
              [⟨"anthropic",
                jsOr body.apiKey
                  ((getSetting settings "anthropic_api_key").getD "")⟩])) := by
        intro u'
        simp [aiPromptHandler, hp, hk]
      refine ⟨fun hp' => absurd hp' hp,
        fun _ => ⟨fun hk' => absurd hk' hk, fun _ => ?_⟩, ?_, ?_, ?_⟩
      · rw [hmain u]
        cases upstreamResult "Failed to parse API response" u <;> simp
      · right
        rw [hmain u]
        cases hres : upstreamResult "Failed to parse API response" u with
        | err m s => exact ⟨by simp, Or.inr ⟨s, m, by simp⟩⟩
        | ok c us => exact ⟨by simp, Or.inl ⟨c, us, by simp⟩⟩
      · intro em hu _
        subst hu
        rw [hmain]
        simp [upstreamResult, jsOrNat]
      · intro status pu hu hs _
        subst hu
        rw [hmain]
        simp [upstreamResult, hs]

/-- C9 witness: with no stored key and no body key, a concrete Anthropic
request answers 400 with the explanatory message and makes no outbound
call. -/
theorem ai_prompt_key_resolution_witness :
    aiPromptHandler {} [] (.transportError "boom") =
      ((400, .errorR
        "No Anthropic API key configured. Add one in the Prompt Lab settings."),
       []) :=
  ((ai_prompt_key_resolution {} [] (.transportError "boom")).2.1
    (by decide)).1 rfl

end BPM
